import Mathlib

/-!
Verification of the alert-to-order pipeline of the trading-bot
repository: the position sizer (positionSizing.edge.mjs), the alert
handler routing, risk gate and trade lifecycle (processAlert.edge.js),
and the PnL reconciliation worker (updateTradePnl.edge.js).

JavaScript numbers are modelled as exact rationals, nullable values as
Option, and the throwing validation of the position sizer as Option.
JS toFixed followed by parseFloat is modelled as rounding to the
nearest multiple of 10 ^ (-d) with ties upward, and Math.floor as the
integer floor.  Strings that the code only compares against a fixed
set of labels (order type, trade state) are modelled as enumerations;
the alert state string, whose exact spelling the routing depends on,
is kept as a string.
-/

namespace TradingBot

inductive Side
  | Buy
  | Sell
deriving DecidableEq

/-- The closing side is the opposite of the side of the open trade. -/
def Side.opposite : Side → Side
  | Side.Buy => Side.Sell
  | Side.Sell => Side.Buy

/-- Model of parseFloat(x.toFixed(d)): round to the nearest multiple of
10 ^ (-d), ties upward. -/
def toFixedQ (d : ℕ) (x : ℚ) : ℚ := ((round (x * 10 ^ d) : ℤ) : ℚ) / 10 ^ d

/-- Model of Math.floor(x / step) * step. -/
def floorStep (step x : ℚ) : ℚ := ((⌊x / step⌋ : ℤ) : ℚ) * step

/-- Parameters of calculatePositionSize in positionSizing.edge.mjs. -/
structure SizeParams where
  entryPrice : ℚ
  stopLoss : ℚ
  riskAmount : ℚ
  side : Side
  feePercentage : ℚ
  minQty : ℚ
  qtyStep : ℚ
  maxPositionSize : ℚ := 0
  decimals : ℕ := 8
deriving DecidableEq

/-- riskPerUnit of calculatePositionSize: entry minus stop for Buy,
stop minus entry for Sell. -/
def riskPerUnitOf (p : SizeParams) : ℚ :=
  if p.side = Side.Buy then p.entryPrice - p.stopLoss
  else p.stopLoss - p.entryPrice

/-- The raw quantity of calculatePositionSize before any clamping:
positionSize = riskAmount / (riskPerUnit + entryPrice * totalFeeRateFactor),
then quantity = positionSize / entryPrice, where
totalFeeRateFactor = (entryPrice * fee + stopLoss * fee) / entryPrice
and fee = feePercentage / 100. -/
def rawQuantity (p : SizeParams) : ℚ :=
  (p.riskAmount /
    (riskPerUnitOf p +
      p.entryPrice *
        ((p.entryPrice * (p.feePercentage / 100) +
          p.stopLoss * (p.feePercentage / 100)) / p.entryPrice))) / p.entryPrice

/-- The quantity after the minimum-quantity clamp: if the computed
quantity is below minQty, the minimum is used. -/
def clampedQuantity (p : SizeParams) : ℚ :=
  if rawQuantity p < p.minQty then p.minQty else rawQuantity p

/-- The quantity after rounding down to the step grid (only when
qtyStep is positive). -/
def steppedQuantity (p : SizeParams) : ℚ :=
  if 0 < p.qtyStep then floorStep p.qtyStep (clampedQuantity p)
  else clampedQuantity p

/-- The quantity after the maximum-position-size cap: when
maxPositionSize is positive and the notional quantity * entryPrice
exceeds it, the quantity is recomputed as maxPositionSize / entryPrice
and rounded down to the step grid again. -/
def cappedQuantity (p : SizeParams) : ℚ :=
  if 0 < p.maxPositionSize then
    if p.maxPositionSize < steppedQuantity p * p.entryPrice then
      (if 0 < p.qtyStep then floorStep p.qtyStep (p.maxPositionSize / p.entryPrice)
       else p.maxPositionSize / p.entryPrice)
    else steppedQuantity p
  else steppedQuantity p

/-- The value returned by calculatePositionSize after validation: the
capped quantity rounded to the configured number of decimals. -/
def sizeCore (p : SizeParams) : ℚ := toFixedQ p.decimals (cappedQuantity p)

/-- calculatePositionSize of positionSizing.edge.mjs; none models a
thrown validation error (non-positive entryPrice, stopLoss or
riskAmount, or a stop loss on the wrong side of the entry price). -/
def calculatePositionSize (p : SizeParams) : Option ℚ :=
  if p.entryPrice ≤ 0 ∨ p.stopLoss ≤ 0 ∨ p.riskAmount ≤ 0 then none
  else if p.side = Side.Buy then
    (if p.entryPrice ≤ p.stopLoss then none else some (sizeCore p))
  else
    (if p.stopLoss ≤ p.entryPrice then none else some (sizeCore p))

/-! Trade lifecycle model (processAlert.edge.js and
updateTradePnl.edge.js). -/

inductive TradeState
  | opened
  | closed
deriving DecidableEq

inductive OrderType
  | Market
  | Limit
deriving DecidableEq

/-- The Trade record fields the pipeline reads and writes. -/
structure Trade where
  side : Side
  quantity : ℚ
  price : ℚ
  stop_loss : Option ℚ
  take_profit : Option ℚ
  state : TradeState
  realized_pnl : Option ℚ
  exit_price : Option ℚ
  avg_entry_price : Option ℚ
  avg_exit_price : Option ℚ
  order_id : ℕ
deriving DecidableEq

/-- The bot-configuration fields the pipeline reads and writes. -/
structure Bot where
  profit_loss : ℚ
  test_mode : Bool
deriving DecidableEq

/-- JS truthiness of a nullable number: null and 0 are falsy. -/
def qTruthy : Option ℚ → Bool
  | none => false
  | some v => v != 0

/-- Model of the JS expression a or-else b or-else null over nullable
numbers (the double pipe operator): the first truthy value, else null. -/
def coalesceOpt (a b : Option ℚ) : Option ℚ :=
  if qTruthy a then a else if qTruthy b then b else none

/-- An order submission to the exchange. -/
structure Order where
  side : Side
  orderType : OrderType
  qty : ℚ
deriving DecidableEq

/-- The Trade record inserted by the open-signal path: state is open,
and the stored stop loss and take profit come from the alert value
or-else the bot default or-else null. -/
def openTradeRecord (side : Side) (qty price : ℚ)
    (alertSl botSl alertTp botTp : Option ℚ) (pnl : Option ℚ) (oid : ℕ) : Trade :=
  { side := side, quantity := qty, price := price,
    stop_loss := coalesceOpt alertSl botSl,
    take_profit := coalesceOpt alertTp botTp,
    state := TradeState.opened, realized_pnl := pnl,
    exit_price := none, avg_entry_price := none, avg_exit_price := none,
    order_id := oid }

/-- The orders the close-signal path submits for a located open trade:
exactly one opposite-side market order for the trade quantity when the
trade has neither (truthy) stop loss nor take profit, and none
otherwise. -/
def closeOrders (t : Trade) : List Order :=
  if qTruthy t.stop_loss = false ∧ qTruthy t.take_profit = false then
    [{ side := Side.opposite t.side, orderType := OrderType.Market, qty := t.quantity }]
  else []

/-- The PnL estimate the close path computes when the exchange did not
report one: price difference times quantity (sign by side) minus a fee
of 0.1 percent of the exit notional. -/
def estimatePnl (side : Side) (entry exitPrice qty : ℚ) : ℚ :=
  (if side = Side.Buy then (exitPrice - entry) * qty
   else (entry - exitPrice) * qty) - exitPrice * qty * (1 / 1000)

/-- The realized PnL stored by the close path (non-test mode): the
alert value when truthy; otherwise, when the trade had neither stop
loss nor take profit, the computed estimate; otherwise null. -/
def closeRealizedPnl (alertPnl : Option ℚ) (t : Trade) (exitPrice : ℚ) : Option ℚ :=
  if qTruthy t.stop_loss = false ∧ qTruthy t.take_profit = false then
    (if qTruthy alertPnl then alertPnl
     else some (estimatePnl t.side t.price exitPrice t.quantity))
  else if qTruthy alertPnl then alertPnl else none

/-- The database effect of the close path: the trade is set to closed
with the stored realized PnL and exit price, and the bot cumulative
profit is increased by the stored PnL when it is truthy. -/
def applyClose (alertPnl : Option ℚ) (exitPrice : ℚ) (t : Trade) (b : Bot) : Trade × Bot :=
  ({ t with
      state := TradeState.closed,
      realized_pnl := closeRealizedPnl alertPnl t exitPrice,
      exit_price :=
        if qTruthy t.stop_loss = false ∧ qTruthy t.take_profit = false then some exitPrice
        else none },
   if qTruthy (closeRealizedPnl alertPnl t exitPrice) then
     { b with profit_loss := b.profit_loss + (closeRealizedPnl alertPnl t exitPrice).getD 0 }
   else b)

/-- One entry of the exchange closed-PnL list. -/
structure ClosedPnlRecord where
  orderId : ℕ
  closedPnl : ℚ
  avgEntryPrice : ℚ
  avgExitPrice : ℚ
deriving DecidableEq

inductive ReconOutcome
  | skippedHasPnl
  | testModeSkip
  | notFound
  | updated
deriving DecidableEq

/-- The HTTP outcome flag of updateTradePnl: every path responds with
success true except the no-matching-record path. -/
def ReconOutcome.isSuccess : ReconOutcome → Bool
  | ReconOutcome.notFound => false
  | _ => true

/-- updateTradePnl.edge.js: skip when the trade already has a realized
PnL and the bot is not in test mode; return early in test mode; else
match the closed-PnL list by order id and, on a match, overwrite the
trade PnL fields and add the closed PnL to the bot cumulative
profit. -/
def reconcile (recs : List ClosedPnlRecord) (t : Trade) (b : Bot) :
    Trade × Bot × ReconOutcome :=
  if t.realized_pnl ≠ none ∧ b.test_mode = false then (t, b, ReconOutcome.skippedHasPnl)
  else if b.test_mode = true then (t, b, ReconOutcome.testModeSkip)
  else
    match recs.find? (fun r => r.orderId == t.order_id) with
    | none => (t, b, ReconOutcome.notFound)
    | some r =>
        ({ t with realized_pnl := some r.closedPnl,
                  avg_entry_price := some r.avgEntryPrice,
                  avg_exit_price := some r.avgExitPrice },
         { b with profit_loss := b.profit_loss + r.closedPnl },
         ReconOutcome.updated)

/-- An operation of the pipeline that mutates an existing trade. -/
inductive PipelineOp
  | closeSignal (alertPnl : Option ℚ) (exitPrice : ℚ)
  | reconcileRun (recs : List ClosedPnlRecord)

/-- Apply a pipeline operation to a trade and its bot. -/
def applyOp : PipelineOp → Trade × Bot → Trade × Bot
  | PipelineOp.closeSignal a e, (t, b) => applyClose a e t b
  | PipelineOp.reconcileRun recs, (t, b) =>
      ((reconcile recs t b).1, (reconcile recs t b).2.1)

/-! Risk gate (daily loss limit) of processAlert.edge.js. -/

/-- Sum of realized PnL over the trades of the day, null counted as
zero. -/
def dailyPnlSum (pnls : List (Option ℚ)) : ℚ :=
  pnls.foldl (fun total p => total + p.getD 0) 0

inductive GateResult
  | deny (loss limit : ℚ)
  | allow
deriving DecidableEq

/-- The daily-loss check: deny, reporting the cumulative loss and the
limit, exactly when the daily sum is negative and its magnitude reaches
the limit. -/
def dailyLossGate (limit : ℚ) (pnls : List (Option ℚ)) : GateResult :=
  if dailyPnlSum pnls < 0 ∧ limit ≤ abs (dailyPnlSum pnls) then
    GateResult.deny (abs (dailyPnlSum pnls)) limit
  else GateResult.allow

/-- The open-signal risk gate for a bot with the daily loss limit
configured: the boolean records whether the pipeline proceeds to place
an order (a deny returns before any order is built). -/
def openSignalGate (limit : ℚ) (pnls : List (Option ℚ)) : GateResult × Bool :=
  if 0 < limit then
    match dailyLossGate limit pnls with
    | GateResult.deny loss lim => (GateResult.deny loss lim, false)
    | GateResult.allow => (GateResult.allow, true)
  else (GateResult.allow, true)

/-! Alert routing of processAlert.edge.js. -/

/-- tradeState = alertData.state or-else the string open (the empty
string is falsy in JS and also falls back to open). -/
def tradeStateOf : Option String → String
  | none => "open"
  | some s => if s = "" then "open" else s

inductive AlertRoute
  | closePath
  | openPath
deriving DecidableEq

/-- The handler routes to the close path exactly when tradeState equals
the string close; every other value goes to the open path. -/
def routeAlert (st : Option String) : AlertRoute :=
  if tradeStateOf st = "close" then AlertRoute.closePath else AlertRoute.openPath

/-! Concrete inputs used when settling the claims. -/

/-- The input of the end-to-end sizing example: entryPrice 50000,
stopLoss 49000, riskAmount 100, Buy, feePercentage 0.075, minQty 0.001,
qtyStep 0.001, no max position size, decimals 3. -/
def pC1 : SizeParams :=
  { entryPrice := 50000, stopLoss := 49000, riskAmount := 100,
    side := Side.Buy, feePercentage := 3 / 40, minQty := 1 / 1000,
    qtyStep := 1 / 1000, maxPositionSize := 0, decimals := 3 }

/-- A sizing input whose minQty (0.0025) is not on the step grid
(step 0.002). -/
def pMinCex : SizeParams :=
  { entryPrice := 50000, stopLoss := 49000, riskAmount := 100,
    side := Side.Buy, feePercentage := 3 / 40, minQty := 1 / 400,
    qtyStep := 1 / 500, maxPositionSize := 0, decimals := 8 }

/-- A sizing input with a positive max position size (77.5) that is
not on the decimals grid, no step, decimals 3. -/
def pCapCex : SizeParams :=
  { entryPrice := 50000, stopLoss := 49000, riskAmount := 537125,
    side := Side.Buy, feePercentage := 3 / 40, minQty := 0,
    qtyStep := 0, maxPositionSize := 155 / 2, decimals := 3 }

/-- An open Buy trade at 50000 for quantity 0.1 with neither stop loss
nor take profit. -/
def tFlat : Trade :=
  { side := Side.Buy, quantity := 1 / 10, price := 50000,
    stop_loss := none, take_profit := none,
    state := TradeState.opened, realized_pnl := none,
    exit_price := none, avg_entry_price := none, avg_exit_price := none,
    order_id := 1 }

/-- An open Buy trade at 50000 for quantity 0.1 with a take profit. -/
def tTpOnly : Trade :=
  { side := Side.Buy, quantity := 1 / 10, price := 50000,
    stop_loss := none, take_profit := some 51000,
    state := TradeState.opened, realized_pnl := none,
    exit_price := none, avg_entry_price := none, avg_exit_price := none,
    order_id := 1 }

/-- A closed trade that already carries a realized PnL. -/
def tClosedPnl : Trade :=
  { side := Side.Buy, quantity := 1 / 10, price := 50000,
    stop_loss := none, take_profit := none,
    state := TradeState.closed, realized_pnl := some 5,
    exit_price := some 50100, avg_entry_price := none, avg_exit_price := none,
    order_id := 1 }

/-- A bot not in test mode with cumulative profit 5. -/
def bReal : Bot := { profit_loss := 5, test_mode := false }

/-- A bot in test mode with cumulative profit 5. -/
def bTest : Bot := { profit_loss := 5, test_mode := true }

/-- A closed-PnL record matching order id 1 with authoritative PnL 7. -/
def rec1 : ClosedPnlRecord :=
  { orderId := 1, closedPnl := 7, avgEntryPrice := 50000, avgExitPrice := 50070 }

/-! General lemmas about the rounding primitives. -/

lemma floorStep_le (step x : ℚ) (hs : 0 < step) : floorStep step x ≤ x := by
  unfold floorStep
  have h := Int.floor_le (x / step)
  calc ((⌊x / step⌋ : ℤ) : ℚ) * step ≤ x / step * step :=
        mul_le_mul_of_nonneg_right h hs.le
    _ = x := div_mul_cancel₀ x hs.ne'

lemma floorStep_nonneg (step x : ℚ) (hs : 0 < step) (hx : 0 ≤ x) :
    0 ≤ floorStep step x := by
  unfold floorStep
  have h0 : (0 : ℚ) ≤ ((⌊x / step⌋ : ℤ) : ℚ) := by
    exact_mod_cast Int.floor_nonneg.mpr (div_nonneg hx hs.le)
  exact mul_nonneg h0 hs.le

lemma toFixedQ_nonneg (d : ℕ) (x : ℚ) (hx : 0 ≤ x) : 0 ≤ toFixedQ d x := by
  unfold toFixedQ
  apply div_nonneg _ (by positivity)
  have h1 : (0 : ℚ) ≤ x * 10 ^ d := by positivity
  have h2 : 0 ≤ round (x * 10 ^ d) := by
    rw [round_eq]
    exact Int.floor_nonneg.mpr (by linarith)
  exact_mod_cast h2

lemma toFixedQ_le_add_half (d : ℕ) (x : ℚ) :
    toFixedQ d x ≤ x + 1 / (2 * 10 ^ d) := by
  unfold toFixedQ
  have hp : (0 : ℚ) < 10 ^ d := by positivity
  have h1 : ((round (x * 10 ^ d) : ℤ) : ℚ) ≤ x * 10 ^ d + 1 / 2 := by
    have h := abs_le.mp (abs_sub_round (x * 10 ^ d))
    linarith [h.1]
  calc ((round (x * 10 ^ d) : ℤ) : ℚ) / 10 ^ d
      ≤ (x * 10 ^ d + 1 / 2) / 10 ^ d := (div_le_div_iff_of_pos_right hp).mpr h1
    _ = x + 1 / (2 * 10 ^ d) := by field_simp; ring

lemma toFixedQ_int_mul (d : ℕ) (k : ℤ) (m : ℕ) :
    toFixedQ d ((k : ℚ) * ((m : ℚ) / 10 ^ d)) = (k : ℚ) * ((m : ℚ) / 10 ^ d) := by
  unfold toFixedQ
  have hp : (10 : ℚ) ^ d ≠ 0 := by positivity
  have h1 : (k : ℚ) * ((m : ℚ) / 10 ^ d) * 10 ^ d = ((k * (m : ℤ) : ℤ) : ℚ) := by
    push_cast
    field_simp
  rw [h1, round_intCast]
  push_cast
  field_simp

/-! Lemmas about the stages of the position sizer. -/

lemma clamped_ge_min (p : SizeParams) : p.minQty ≤ clampedQuantity p := by
  unfold clampedQuantity
  split_ifs with h
  · exact le_refl _
  · exact le_of_not_lt h

lemma clamped_nonneg (p : SizeParams) (hmin : 0 ≤ p.minQty) :
    0 ≤ clampedQuantity p :=
  le_trans hmin (clamped_ge_min p)

lemma stepped_nonneg (p : SizeParams) (hmin : 0 ≤ p.minQty) :
    0 ≤ steppedQuantity p := by
  unfold steppedQuantity
  split_ifs with h
  · exact floorStep_nonneg _ _ h (clamped_nonneg p hmin)
  · exact clamped_nonneg p hmin

lemma capped_nonneg (p : SizeParams) (hmin : 0 ≤ p.minQty)
    (hentry : 0 < p.entryPrice) : 0 ≤ cappedQuantity p := by
  unfold cappedQuantity
  split_ifs with h1 h2 h3
  · exact floorStep_nonneg _ _ h3 (div_nonneg h1.le hentry.le)
  · exact div_nonneg h1.le hentry.le
  · exact stepped_nonneg p hmin
  · exact stepped_nonneg p hmin

lemma stepped_mul_step (p : SizeParams) (hs : 0 < p.qtyStep) :
    ∃ k : ℤ, steppedQuantity p = (k : ℚ) * p.qtyStep := by
  unfold steppedQuantity
  rw [if_pos hs]
  exact ⟨⌊clampedQuantity p / p.qtyStep⌋, rfl⟩

lemma capped_mul_step (p : SizeParams) (hs : 0 < p.qtyStep) :
    ∃ k : ℤ, cappedQuantity p = (k : ℚ) * p.qtyStep := by
  unfold cappedQuantity
  split_ifs with h1 h2
  · exact ⟨⌊p.maxPositionSize / p.entryPrice / p.qtyStep⌋, rfl⟩
  · exact stepped_mul_step p hs
  · exact stepped_mul_step p hs

lemma capped_notional_le (p : SizeParams) (hmax : 0 < p.maxPositionSize)
    (hentry : 0 < p.entryPrice) :
    cappedQuantity p * p.entryPrice ≤ p.maxPositionSize := by
  unfold cappedQuantity
  rw [if_pos hmax]
  split_ifs with h2 h3
  · have hle : floorStep p.qtyStep (p.maxPositionSize / p.entryPrice)
        ≤ p.maxPositionSize / p.entryPrice := floorStep_le _ _ h3
    calc floorStep p.qtyStep (p.maxPositionSize / p.entryPrice) * p.entryPrice
        ≤ p.maxPositionSize / p.entryPrice * p.entryPrice :=
          mul_le_mul_of_nonneg_right hle hentry.le
      _ = p.maxPositionSize := div_mul_cancel₀ _ hentry.ne'
  · rw [div_mul_cancel₀ _ hentry.ne']
  · exact le_of_not_lt h2

lemma calculatePositionSize_some (p : SizeParams) (q : ℚ)
    (h : calculatePositionSize p = some q) :
    q = sizeCore p ∧ 0 < p.entryPrice ∧ 0 < p.stopLoss ∧ 0 < p.riskAmount := by
  unfold calculatePositionSize at h
  split_ifs at h with hv hb hd hd2 <;>
    (push_neg at hv
     exact ⟨(Option.some.inj h).symm, hv⟩)

/-! Evaluation of the position sizer on the concrete inputs. -/

lemma raw_pC1 : rawQuantity pC1 = 8 / 4297000 := by
  norm_num [rawQuantity, riskPerUnitOf, pC1]

lemma clamped_pC1 : clampedQuantity pC1 = 1 / 1000 := by
  unfold clampedQuantity
  rw [raw_pC1]
  norm_num [pC1]

lemma stepped_pC1 : steppedQuantity pC1 = 1 / 1000 := by
  unfold steppedQuantity
  rw [clamped_pC1]
  norm_num [pC1, floorStep]

lemma capped_pC1 : cappedQuantity pC1 = 1 / 1000 := by
  unfold cappedQuantity
  rw [stepped_pC1]
  norm_num [pC1]

lemma sizeCore_pC1 : sizeCore pC1 = 1 / 1000 := by
  unfold sizeCore
  rw [capped_pC1]
  norm_num [pC1, toFixedQ, round_eq]

lemma eval_pC1 : calculatePositionSize pC1 = some (1 / 1000) := by
  unfold calculatePositionSize
  rw [sizeCore_pC1]
  norm_num [pC1]

lemma raw_pMinCex : rawQuantity pMinCex = 8 / 4297000 := by
  norm_num [rawQuantity, riskPerUnitOf, pMinCex]

lemma clamped_pMinCex : clampedQuantity pMinCex = 1 / 400 := by
  unfold clampedQuantity
  rw [raw_pMinCex]
  norm_num [pMinCex]

lemma stepped_pMinCex : steppedQuantity pMinCex = 1 / 500 := by
  unfold steppedQuantity
  rw [clamped_pMinCex]
  norm_num [pMinCex, floorStep]

lemma capped_pMinCex : cappedQuantity pMinCex = 1 / 500 := by
  unfold cappedQuantity
  rw [stepped_pMinCex]
  norm_num [pMinCex]

lemma sizeCore_pMinCex : sizeCore pMinCex = 1 / 500 := by
  unfold sizeCore
  rw [capped_pMinCex]
  norm_num [pMinCex, toFixedQ, round_eq]

lemma eval_pMinCex : calculatePositionSize pMinCex = some (1 / 500) := by
  unfold calculatePositionSize
  rw [sizeCore_pMinCex]
  norm_num [pMinCex]

lemma raw_pCapCex : rawQuantity pCapCex = 1 / 100 := by
  norm_num [rawQuantity, riskPerUnitOf, pCapCex]

lemma clamped_pCapCex : clampedQuantity pCapCex = 1 / 100 := by
  unfold clampedQuantity
  rw [raw_pCapCex]
  norm_num [pCapCex]

lemma stepped_pCapCex : steppedQuantity pCapCex = 1 / 100 := by
  unfold steppedQuantity
  rw [clamped_pCapCex]
  norm_num [pCapCex]

lemma capped_pCapCex : cappedQuantity pCapCex = 31 / 20000 := by
  unfold cappedQuantity
  rw [stepped_pCapCex]
  norm_num [pCapCex]

lemma sizeCore_pCapCex : sizeCore pCapCex = 1 / 500 := by
  unfold sizeCore
  rw [capped_pCapCex]
  norm_num [pCapCex, toFixedQ, round_eq]

lemma eval_pCapCex : calculatePositionSize pCapCex = some (1 / 500) := by
  unfold calculatePositionSize
  rw [sizeCore_pCapCex]
  norm_num [pCapCex]

/-- Claim C1: on entryPrice 50000, stopLoss 49000, riskAmount 100, Buy,
fee 0.075, minQty 0.001, qtyStep 0.001, decimals 3, the specification
predicts the quantity 100 / (1000 + 50000 * 0.001485) rounded down,
namely 0.093.  The code divides that risk-based quantity by entryPrice
a second time, lands far below the minimum and returns the minQty
floor 0.001 instead of 0.093. -/
theorem c1_sizing_example_eval :
    calculatePositionSize pC1 = some (1 / 1000) ∧ (1 / 1000 : ℚ) ≠ 93 / 1000 :=
  ⟨eval_pC1, by norm_num⟩

/-- Claim C2 (counterexample): with minQty 0.0025 and qtyStep 0.002 the
sizer returns 0.002, which is smaller than minQty, because the step
floor runs after the minimum-quantity clamp. -/
theorem c2_min_qty_counterexample :
    calculatePositionSize pMinCex = some (1 / 500) ∧
    ¬ pMinCex.minQty ≤ (1 / 500 : ℚ) :=
  ⟨eval_pMinCex, by norm_num [pMinCex]⟩

/-- Claim C2 (amended): for every input accepted by the validation with
minQty nonnegative, the returned quantity is nonnegative, and whenever
qtyStep is positive and is an integer multiple of 10 ^ (-decimals) (as
in the pipeline, where decimals counts the fractional digits of the
step) the returned quantity is an exact integer multiple of qtyStep.
The quantity need not be at least minQty. -/
theorem c2_amended_nonneg_step_multiple (p : SizeParams) (q : ℚ)
    (hq : calculatePositionSize p = some q) (hmin : 0 ≤ p.minQty) :
    0 ≤ q ∧ ∀ m : ℕ, 0 < p.qtyStep → p.qtyStep = (m : ℚ) / 10 ^ p.decimals →
      ∃ k : ℤ, q = (k : ℚ) * p.qtyStep := by
  obtain ⟨hqe, hentry, _, _⟩ := calculatePositionSize_some p q hq
  constructor
  · rw [hqe]
    exact toFixedQ_nonneg _ _ (capped_nonneg p hmin hentry)
  · intro m hs hstep
    obtain ⟨k, hk⟩ := capped_mul_step p hs
    refine ⟨k, ?_⟩
    rw [hqe]
    unfold sizeCore
    rw [hk, hstep]
    exact toFixedQ_int_mul p.decimals k m

/-- Claim C2 (witness): the amended statement evaluated on the concrete
example input. -/
theorem c2_amended_witness :
    0 ≤ (1 / 1000 : ℚ) ∧ ∃ k : ℤ, (1 / 1000 : ℚ) = (k : ℚ) * pC1.qtyStep :=
  ⟨(c2_amended_nonneg_step_multiple pC1 (1 / 1000) eval_pC1 (by norm_num [pC1])).1,
   (c2_amended_nonneg_step_multiple pC1 (1 / 1000) eval_pC1 (by norm_num [pC1])).2
     1 (by norm_num [pC1]) (by norm_num [pC1])⟩

/-- Claim C3 (counterexample): with max position size 77.5 at entry
price 50000 and decimals 3 the sizer returns 0.002, whose notional 100
exceeds the cap, because the final rounding to decimals digits rounds
to nearest rather than down. -/
theorem c3_cap_counterexample :
    calculatePositionSize pCapCex = some (1 / 500) ∧
    ¬ (1 / 500 : ℚ) * pCapCex.entryPrice ≤ pCapCex.maxPositionSize :=
  ⟨eval_pCapCex, by norm_num [pCapCex]⟩

/-- Claim C3 (amended): for every accepted input with a positive max
position size, the quantity before the final decimals rounding has
notional at most maxPositionSize; the final rounding can add at most
half a decimals grid step, so the returned notional is at most
maxPositionSize + entryPrice / (2 * 10 ^ decimals) but can exceed
maxPositionSize itself. -/
theorem c3_amended_cap (p : SizeParams) (q : ℚ)
    (hq : calculatePositionSize p = some q) (hmax : 0 < p.maxPositionSize) :
    cappedQuantity p * p.entryPrice ≤ p.maxPositionSize ∧
    q ≤ cappedQuantity p + 1 / (2 * 10 ^ p.decimals) ∧
    q * p.entryPrice ≤ p.maxPositionSize + p.entryPrice / (2 * 10 ^ p.decimals) := by
  obtain ⟨hqe, hentry, _, _⟩ := calculatePositionSize_some p q hq
  have h1 := capped_notional_le p hmax hentry
  have h2 : q ≤ cappedQuantity p + 1 / (2 * 10 ^ p.decimals) := by
    rw [hqe]
    exact toFixedQ_le_add_half _ _
  refine ⟨h1, h2, ?_⟩
  have h3 : q * p.entryPrice
      ≤ (cappedQuantity p + 1 / (2 * 10 ^ p.decimals)) * p.entryPrice :=
    mul_le_mul_of_nonneg_right h2 hentry.le
  have h4 : (cappedQuantity p + 1 / (2 * 10 ^ p.decimals)) * p.entryPrice
      = cappedQuantity p * p.entryPrice + p.entryPrice / (2 * 10 ^ p.decimals) := by
    ring
  rw [h4] at h3
  linarith

/-- Claim C3 (witness): the amended statement evaluated on the concrete
cap input. -/
theorem c3_amended_cap_witness :
    cappedQuantity pCapCex * pCapCex.entryPrice ≤ pCapCex.maxPositionSize ∧
    (1 / 500 : ℚ) ≤ cappedQuantity pCapCex + 1 / (2 * 10 ^ pCapCex.decimals) ∧
    (1 / 500 : ℚ) * pCapCex.entryPrice
      ≤ pCapCex.maxPositionSize + pCapCex.entryPrice / (2 * 10 ^ pCapCex.decimals) :=
  c3_amended_cap pCapCex (1 / 500) eval_pCapCex (by norm_num [pCapCex])

/-! Lemmas about the trade lifecycle model. -/

lemma qTruthy_eq_false (o : Option ℚ) (h : qTruthy o = false) :
    o = none ∨ o = some 0 := by
  cases o with
  | none => exact Or.inl rfl
  | some v =>
    right
    have hv : v = 0 := by simpa [qTruthy] using h
    rw [hv]

lemma applyClose_snd_test (a : Option ℚ) (e : ℚ) (t : Trade) (b : Bot) :
    ((applyClose a e t b).2).test_mode = b.test_mode := by
  unfold applyClose
  split_ifs <;> rfl

lemma applyClose_snd_of_none (a : Option ℚ) (e : ℚ) (t : Trade) (b : Bot)
    (h : closeRealizedPnl a t e = none) : (applyClose a e t b).2 = b := by
  unfold applyClose
  rw [h]
  simp [qTruthy]

/-- Claim C4: when reconciliation finds a matching closed-PnL record
after a close, it overwrites the realized PnL and average prices of
the trade with the exchange values, and the bot cumulative profit ends
exactly at its pre-close value plus the authoritative PnL: the match
branch is reachable only when the stored realized PnL is null, in
which case the close credited nothing, so the added amount equals the
delta between the authoritative PnL and the estimate already credited
and the authoritative PnL is not double-counted. -/
theorem c4_reconciliation_no_double_count (recs : List ClosedPnlRecord)
    (alertPnl : Option ℚ) (exitPrice : ℚ) (t : Trade) (b : Bot) (r : ClosedPnlRecord)
    (hupd : (reconcile recs (applyClose alertPnl exitPrice t b).1
        (applyClose alertPnl exitPrice t b).2).2.2 = ReconOutcome.updated)
    (hfind : recs.find?
        (fun pr => pr.orderId == (applyClose alertPnl exitPrice t b).1.order_id)
        = some r) :
    (reconcile recs (applyClose alertPnl exitPrice t b).1
        (applyClose alertPnl exitPrice t b).2).1.realized_pnl = some r.closedPnl ∧
    (reconcile recs (applyClose alertPnl exitPrice t b).1
        (applyClose alertPnl exitPrice t b).2).1.avg_entry_price = some r.avgEntryPrice ∧
    (reconcile recs (applyClose alertPnl exitPrice t b).1
        (applyClose alertPnl exitPrice t b).2).1.avg_exit_price = some r.avgExitPrice ∧
    (reconcile recs (applyClose alertPnl exitPrice t b).1
        (applyClose alertPnl exitPrice t b).2).2.1.profit_loss
      = b.profit_loss + r.closedPnl := by
  set t1 := (applyClose alertPnl exitPrice t b).1 with ht1
  set b1 := (applyClose alertPnl exitPrice t b).2 with hb1
  unfold reconcile at hupd ⊢
  split_ifs at hupd ⊢ with h1 h2
  have htest : b1.test_mode = false := by
    cases hbt : b1.test_mode
    · rfl
    · exact absurd hbt h2
  have hnone : t1.realized_pnl = none := by
    by_contra hne
    exact h1 ⟨hne, htest⟩
  have hcrp : closeRealizedPnl alertPnl t exitPrice = none := by
    rw [ht1] at hnone
    exact hnone
  have hb : b1 = b := by
    rw [hb1]
    exact applyClose_snd_of_none _ _ _ _ hcrp
  rw [hfind]
  refine ⟨rfl, rfl, rfl, ?_⟩
  simp [hb]

/-- Claim C4 (witness): the reconciliation of a concrete closed trade
whose close stored no PnL ends with the bot credited exactly the
authoritative PnL. -/
theorem c4_reconciliation_witness :
    (reconcile [rec1] (applyClose none 50500 tTpOnly bReal).1
        (applyClose none 50500 tTpOnly bReal).2).1.realized_pnl = some rec1.closedPnl ∧
    (reconcile [rec1] (applyClose none 50500 tTpOnly bReal).1
        (applyClose none 50500 tTpOnly bReal).2).1.avg_entry_price = some rec1.avgEntryPrice ∧
    (reconcile [rec1] (applyClose none 50500 tTpOnly bReal).1
        (applyClose none 50500 tTpOnly bReal).2).1.avg_exit_price = some rec1.avgExitPrice ∧
    (reconcile [rec1] (applyClose none 50500 tTpOnly bReal).1
        (applyClose none 50500 tTpOnly bReal).2).2.1.profit_loss
      = bReal.profit_loss + rec1.closedPnl :=
  c4_reconciliation_no_double_count [rec1] none 50500 tTpOnly bReal rec1
    (by simp [reconcile, applyClose, closeRealizedPnl, qTruthy, tTpOnly, bReal, rec1])
    (by simp [applyClose, tTpOnly, rec1])

/-- Claim C5: for a bot with a positive daily loss limit, the open
signal is denied with the daily-loss reason, reporting the cumulative
loss and the limit and placing no order, exactly when the daily PnL
sum (null counted as zero) is negative with magnitude at least the
limit. -/
theorem c5_daily_loss_gate (limit : ℚ) (pnls : List (Option ℚ)) (h : 0 < limit) :
    openSignalGate limit pnls
        = (GateResult.deny (abs (dailyPnlSum pnls)) limit, false)
      ↔ dailyPnlSum pnls < 0 ∧ limit ≤ abs (dailyPnlSum pnls) := by
  unfold openSignalGate dailyLossGate
  rw [if_pos h]
  split_ifs with hc
  · simp [hc]
  · simp [hc]

/-- Claim C5 (witness): trades summing to -120 against the limit 100
are denied with the reported loss 120 and no order placed. -/
theorem c5_daily_loss_gate_witness :
    openSignalGate 100 [some (-50), some (-70)]
        = (GateResult.deny (abs (dailyPnlSum [some (-50), some (-70)])) 100, false) ∧
    abs (dailyPnlSum [some (-50), some (-70)]) = 120 :=
  ⟨(c5_daily_loss_gate 100 [some (-50), some (-70)] (by norm_num)).mpr
      (by norm_num [dailyPnlSum]),
   by norm_num [dailyPnlSum]⟩

/-- Claim C6: running reconciliation on a trade whose realized PnL is
already set, for a bot not in test mode, returns a success outcome and
leaves the trade and the bot unchanged; when the bot is in test mode
this skip guard never fires. -/
theorem c6_reconcile_skip_idempotent :
    (∀ (recs : List ClosedPnlRecord) (t : Trade) (b : Bot) (x : ℚ),
      t.realized_pnl = some x → b.test_mode = false →
        reconcile recs t b = (t, b, ReconOutcome.skippedHasPnl) ∧
        ReconOutcome.isSuccess ReconOutcome.skippedHasPnl = true) ∧
    (∀ (recs : List ClosedPnlRecord) (t : Trade) (b : Bot),
      b.test_mode = true →
        (reconcile recs t b).2.2 ≠ ReconOutcome.skippedHasPnl) := by
  constructor
  · intro recs t b x hx hb
    refine ⟨?_, rfl⟩
    unfold reconcile
    rw [if_pos ⟨by simp [hx], hb⟩]
  · intro recs t b hb
    unfold reconcile
    split_ifs with h1
    · simp [hb] at h1
    · simp

/-- Claim C6 (witness): the skip on a concrete already-reconciled
trade, and the test-mode bot not taking the skip branch. -/
theorem c6_reconcile_skip_witness :
    (reconcile [] tClosedPnl bReal = (tClosedPnl, bReal, ReconOutcome.skippedHasPnl) ∧
      ReconOutcome.isSuccess ReconOutcome.skippedHasPnl = true) ∧
    (reconcile [] tClosedPnl bTest).2.2 ≠ ReconOutcome.skippedHasPnl :=
  ⟨c6_reconcile_skip_idempotent.1 [] tClosedPnl bReal 5 rfl rfl,
   c6_reconcile_skip_idempotent.2 [] tClosedPnl bTest rfl⟩

/-- Claim C7: stored stop loss and take profit are never the zero
value (the open path coalesces falsy values to null); a close signal
on an open trade with both absent submits exactly one market order on
the opposite side for the trade quantity, and a close on a trade with
either one set submits no order. -/
theorem c7_close_order_submission :
    (∀ a c : Option ℚ, coalesceOpt a c ≠ some 0) ∧
    (∀ t : Trade, t.stop_loss ≠ some 0 → t.take_profit ≠ some 0 →
      ((t.stop_loss = none ∧ t.take_profit = none →
        closeOrders t =
          [{ side := Side.opposite t.side, orderType := OrderType.Market,
             qty := t.quantity }]) ∧
       ((t.stop_loss ≠ none ∨ t.take_profit ≠ none) → closeOrders t = []))) := by
  constructor
  · intro a c
    unfold coalesceOpt
    split_ifs with h1 h2
    · intro heq
      rw [heq] at h1
      simp [qTruthy] at h1
    · intro heq
      rw [heq] at h2
      simp [qTruthy] at h2
    · simp
  · intro t hsl htp
    constructor
    · rintro ⟨h1, h2⟩
      unfold closeOrders
      rw [h1, h2]
      simp [qTruthy]
    · intro hor
      have hcond : ¬(qTruthy t.stop_loss = false ∧ qTruthy t.take_profit = false) := by
        rintro ⟨hc1, hc2⟩
        rcases hor with h | h
        · rcases qTruthy_eq_false _ hc1 with h0 | h0
          · exact h h0
          · exact hsl h0
        · rcases qTruthy_eq_false _ hc2 with h0 | h0
          · exact h h0
          · exact htp h0
      unfold closeOrders
      rw [if_neg hcond]

/-- Claim C7 (witness): the concrete flat trade produces exactly one
opposite-side market order, and the trade with a take profit produces
none. -/
theorem c7_close_order_witness :
    closeOrders tFlat =
      [{ side := Side.opposite tFlat.side, orderType := OrderType.Market,
         qty := tFlat.quantity }] ∧
    closeOrders tTpOnly = [] :=
  ⟨(c7_close_order_submission.2 tFlat (by simp [tFlat]) (by simp [tFlat])).1
      ⟨rfl, rfl⟩,
   (c7_close_order_submission.2 tTpOnly (by simp [tTpOnly]) (by simp [tTpOnly])).2
      (Or.inr (by simp [tTpOnly]))⟩

/-- Claim C8: when the alert reports no realized PnL and the trade had
neither stop loss nor take profit, the close path stores the estimate
(exit minus entry) times quantity for Buy, (entry minus exit) times
quantity for Sell, minus a fee of exit times quantity times 0.001. -/
theorem c8_close_pnl_estimate (alertPnl : Option ℚ) (exitPrice : ℚ) (t : Trade) (b : Bot)
    (ha : qTruthy alertPnl = false) (hsl : t.stop_loss = none)
    (htp : t.take_profit = none) :
    ((applyClose alertPnl exitPrice t b).1).realized_pnl =
      some ((if t.side = Side.Buy then (exitPrice - t.price) * t.quantity
             else (t.price - exitPrice) * t.quantity)
            - exitPrice * t.quantity * (1 / 1000)) := by
  have h1 : ((applyClose alertPnl exitPrice t b).1).realized_pnl
      = closeRealizedPnl alertPnl t exitPrice := rfl
  rw [h1]
  unfold closeRealizedPnl estimatePnl
  rw [hsl, htp, ha]
  simp [qTruthy]

/-- Claim C8 (witness): a Buy opened at 50000 with quantity 0.1 and
closed at 50500 yields the stored estimate 44.95. -/
theorem c8_close_pnl_witness :
    ((applyClose none 50500 tFlat bReal).1).realized_pnl = some (899 / 20) := by
  have h := c8_close_pnl_estimate none 50500 tFlat bReal rfl rfl rfl
  rw [h]
  norm_num [tFlat]

/-- Claim C9: a trade is created in the open state, the close path
moves it to closed, and no pipeline operation moves a closed trade
back to open. -/
theorem c9_state_transitions :
    (∀ (side : Side) (qty price : ℚ) (alertSl botSl alertTp botTp pnl : Option ℚ)
        (oid : ℕ),
      (openTradeRecord side qty price alertSl botSl alertTp botTp pnl oid).state
        = TradeState.opened) ∧
    (∀ (a : Option ℚ) (e : ℚ) (t : Trade) (b : Bot),
      ((applyClose a e t b).1).state = TradeState.closed) ∧
    (∀ (op : PipelineOp) (t : Trade) (b : Bot),
      t.state = TradeState.closed →
        ((applyOp op (t, b)).1).state = TradeState.closed) := by
  refine ⟨fun _ _ _ _ _ _ _ _ _ => rfl, fun _ _ _ _ => rfl, ?_⟩
  intro op t b ht
  cases op with
  | closeSignal a e => rfl
  | reconcileRun recs =>
    simp only [applyOp]
    unfold reconcile
    split_ifs with h1 h2
    · exact ht
    · exact ht
    · cases hf : recs.find? (fun r => r.orderId == t.order_id) with
      | none => exact ht
      | some r => exact ht

/-- Claim C9 (witness): reconciliation applied to a concrete closed
trade leaves it closed. -/
theorem c9_state_transitions_witness :
    ((applyOp (PipelineOp.reconcileRun []) (tClosedPnl, bReal)).1).state
      = TradeState.closed :=
  c9_state_transitions.2.2 (PipelineOp.reconcileRun []) tClosedPnl bReal rfl

/-- Claim C10: the handler routes to the close path exactly when the
alert state is the exact string close; the strings Close, closed, the
empty string and a missing state all route to the open path. -/
theorem c10_close_routing :
    (∀ st : Option String, routeAlert st = AlertRoute.closePath ↔ st = some "close") ∧
    routeAlert (some "Close") = AlertRoute.openPath ∧
    routeAlert (some "closed") = AlertRoute.openPath ∧
    routeAlert (some "") = AlertRoute.openPath ∧
    routeAlert none = AlertRoute.openPath := by
  refine ⟨?_, by simp [routeAlert, tradeStateOf], by simp [routeAlert, tradeStateOf],
    by simp [routeAlert, tradeStateOf], by simp [routeAlert, tradeStateOf]⟩
  intro st
  cases st with
  | none => simp [routeAlert, tradeStateOf]
  | some s =>
    by_cases he : s = ""
    · subst he
      simp [routeAlert, tradeStateOf]
    · by_cases hd : s = "close"
      · subst hd
        simp [routeAlert, tradeStateOf]
      · simp [routeAlert, tradeStateOf, he, hd]

end TradingBot
